import Mathlib

/-!
Shallow embedding of the two middleware components of the repository
(securityMiddleware/security.go and rescueMiddleware/rescue.go), together
with theorems settling the spec claims about them.

An HTTP response writer is modelled as the trace of calls the middleware
makes on it (`Header().Set`, `Header().Add`, `WriteHeader`, `Write`); a
request carries the target host and a header list.  Go maps appear in the
source only as `map[string][]string` configuration fields and as the
recovered `map[string]interface{}` panic value; both are modelled as
association lists, the list order standing for the (unspecified) Go map
iteration order.
-/

set_option maxRecDepth 4096

/-- One call made on the `http.ResponseWriter`. -/
inductive HttpEvent where
  /-- `w.Header().Set(key, value)` -/
  | setHeader (key value : String)
  /-- `w.Header().Add(key, value)` -/
  | addHeader (key value : String)
  /-- `w.WriteHeader(status)` -/
  | writeHeader (status : Nat)
  /-- `w.Write(body)` -/
  | write (body : String)
  deriving DecidableEq, Repr

/-- The parts of `*http.Request` the two middlewares read: the target host
and the request headers (header lookup is modelled as exact-key lookup on
this list; Go's MIME canonicalisation of header keys is abstracted away,
all keys in play are already canonical). -/
structure Request where
  Host : String
  headers : List (String × String)
  deriving DecidableEq, Repr

/-- Go's `r.Header.Get(key)`: first value for the key, `""` when absent. -/
def headerGet (r : Request) (key : String) : String :=
  (r.headers.lookup key).getD ""

/-- The body payloads of the `write` events of a trace, in order. -/
def bodyWrites : List HttpEvent → List String
  | [] => []
  | HttpEvent.write b :: rest => b :: bodyWrites rest
  | _ :: rest => bodyWrites rest

/-- The statuses passed to `writeHeader` in a trace, in order. -/
def statusWrites : List HttpEvent → List Nat
  | [] => []
  | HttpEvent.writeHeader s :: rest => s :: statusWrites rest
  | _ :: rest => statusWrites rest

/-- The value installed for `key` by the `setHeader` events of a trace
(first matching `Set`; in the traces below each key is set at most once). -/
def findSet : List HttpEvent → String → Option String
  | [], _ => none
  | HttpEvent.setHeader k v :: rest, key =>
      if k == key then some v else findSet rest key
  | _ :: rest, key => findSet rest key

namespace securityMiddleware

/-- `Config` of securityMiddleware/security.go.  The two
`map[string][]string` fields are association lists whose order stands for
the Go map's iteration order. -/
structure Config where
  XFrameOptions : String
  ContentSecurityPolicy : List (String × List String)
  ContentSecurityPolicyReportOnly : List (String × List String)
  StrictTransportSecurity : String
  XContentTypeOptions : String
  deriving DecidableEq, Repr

/-- `DefaultConfig` of security.go (the commented-out CSP block is absent,
so both CSP maps are nil). -/
def DefaultConfig : Config :=
  { XFrameOptions := "SAMEORIGIN"
    ContentSecurityPolicy := []
    ContentSecurityPolicyReportOnly := []
    StrictTransportSecurity := "max-age=2592000"
    XContentTypeOptions := "nosniff" }

/-- Go's `strings.HasSuffix(s, suffix)`. -/
def hasSuffix (s suffix : String) : Bool :=
  suffix.data.isSuffixOf s.data

/-- The fragment one CSP map entry contributes:
`fmt.Sprintf("%v %v;", k, strings.Join(v, " "))`. -/
def cspFragment (kv : String × List String) : String :=
  kv.1 ++ " " ++ " ".intercalate kv.2 ++ ";"

/-- The `csp += fmt.Sprintf(...)` accumulation loop of `WithConfig`,
run over the map entries in iteration order. -/
def cspSerialize (m : List (String × List String)) : String :=
  m.foldl (fun csp kv => csp ++ cspFragment kv) ""

/-- The `Header().Set` calls the handler of `WithConfig` performs for one
request, in source order. -/
def securityHeadersList (config : Config) (rootDomain : String) (r : Request) :
    List HttpEvent :=
  let csp := cspSerialize config.ContentSecurityPolicy
  let cspReport := cspSerialize config.ContentSecurityPolicyReportOnly
  (if config.XFrameOptions != "" then
    [HttpEvent.setHeader "X-Frame-Options" config.XFrameOptions] else [])
  ++ (if csp != "" then
    [HttpEvent.setHeader "Content-Security-Policy" csp] else [])
  ++ (if cspReport != "" then
    [HttpEvent.setHeader "Content-Security-Policy-Report-Only" cspReport] else [])
  ++ (if config.StrictTransportSecurity != "" && hasSuffix r.Host rootDomain then
    [HttpEvent.setHeader "Strict-Transport-Security" config.StrictTransportSecurity] else [])
  ++ (if config.XContentTypeOptions != "" then
    [HttpEvent.setHeader "X-Content-Type-Options" config.XContentTypeOptions] else [])

/-- `WithConfig(config, rootDomain)`: set the headers, then
`next.ServeHTTP(w, r)` unconditionally.  The next handler is modelled by
the trace it writes. -/
def WithConfig (config : Config) (rootDomain : String)
    (next : Request → List HttpEvent) (r : Request) : List HttpEvent :=
  securityHeadersList config rootDomain r ++ next r

/-- `Add(rootDomain)` = `WithConfig(DefaultConfig, rootDomain)`. -/
def Add (rootDomain : String) (next : Request → List HttpEvent) (r : Request) :
    List HttpEvent :=
  WithConfig DefaultConfig rootDomain next r

end securityMiddleware

namespace rescueMiddleware

/-- An `interface{}` value stored in a recovered `map[string]interface{}`:
either a value whose dynamic type implements `error` (carrying the string
its `Error()` method returns) or any other value. -/
inductive MapVal where
  | errVal (msg : String)
  | nonErr (repr : String)
  deriving DecidableEq, Repr

/-- The dynamic shape of a recovered panic value, as the `switch rec.(type)`
of rescue.go distinguishes it: an `error` (carrying its `Error()` string), a
`map[string]interface{}` (as an association list), or any other value
(carrying its `%v` formatting). -/
inductive GoValue where
  | errValue (msg : String)
  | strMap (entries : List (String × MapVal))
  | other (repr : String)
  deriving DecidableEq, Repr

/-- How a downstream handler invocation ends: normal return, or a panic
carrying a value. -/
inductive Outcome where
  | ok
  | fault (v : GoValue)
  deriving DecidableEq, Repr

/-- A `*log.Entry` of the github.com/teamwork/log collaborator, opaque but
for the module name `log.Module` installs and the extra fields a callback
may attach. -/
structure LogEntry where
  module : String
  fields : List (String × String) := []
  deriving DecidableEq, Repr

/-- The error-classification `switch rec := rec.(type)` of rescue.go
(lines 32-40).  `none` is Go's nil `error`: in the map case
`err, _ = rec["error"].(error)` leaves `err` nil when the `"error"` key is
absent or its value is not an `error`. -/
def classify : GoValue → Option String
  | GoValue.errValue msg => some msg
  | GoValue.strMap entries =>
      match entries.lookup "error" with
      | some (MapVal.errVal msg) => some msg
      | _ => none
  | GoValue.other repr => some repr

/-- `fmt`'s `%v` of an `error` value: its `Error()` string, or `<nil>` for
a nil error. -/
def fmtErr : Option String → String
  | some msg => msg
  | none => "<nil>"

/-- The `json.Marshal(map[string]interface{}{"message": ...})` bytes of the
non-dev XHR branch (a single string key; the message needs no JSON
escaping). -/
def jsonApologyBody : String :=
  "\x7b\"message\":\"Sorry, the server ran into a problem processing this request.\"\x7d"

/-- The plain-text fallback body of the final branch. -/
def textApologyBody : String :=
  "Sorry, the server ran into a problem processing this request."

/-- Result of running the `Rescue` handler on one request: the response
trace, the `(entry, error)` pair passed to `l.Err` when a panic was
recovered (`none` when `l.Err` was never called; the inner `none` is a nil
`error` argument), and whether a fault escaped the middleware itself. -/
structure RescueResult where
  events : List HttpEvent
  logged : Option (LogEntry × Option String)
  escaped : Bool
  deriving DecidableEq, Repr

/-- The log entry as it stands when `l.Err` runs: `log.Module("panic
handler")`, then `l = extraFields(r, l)` when the callback is supplied. -/
def rescueEntry (extraFields : Option (Request → LogEntry → LogEntry))
    (r : Request) : LogEntry :=
  match extraFields with
  | some f => f r { module := "panic handler" }
  | none => { module := "panic handler" }

/-- `r.Header.Get("X-Requested-With") == "XMLHttpRequest"`. -/
def isXhr (r : Request) : Bool :=
  headerGet r "X-Requested-With" == "XMLHttpRequest"

/-- `Rescue(extraFields, dev)` of rescue.go, applied to one request.

The next handler is modelled by the trace it writes plus its outcome;
`stack` is the `debug.Stack()` capture at recovery time.  The deferred
function runs after the handler: on a nil `recover()` it returns; otherwise
it classifies the fault, logs it, writes status 500 and one branch of the
response table.  In the dev XHR branch `w.Write([]byte(err.Error()))` calls
`Error()` on the classified error: when that error is nil this is a method
call on a nil interface, a runtime panic inside the deferred function
itself, which `recover()` (already consumed) no longer stops — modelled by
`escaped := true` with the trace cut at the point of the crash. -/
def Rescue (extraFields : Option (Request → LogEntry → LogEntry)) (dev : Bool)
    (next : Request → List HttpEvent × Outcome) (stack : String)
    (r : Request) : RescueResult :=
  match next r with
  | (evts, Outcome.ok) => { events := evts, logged := none, escaped := false }
  | (evts, Outcome.fault v) =>
    let err := classify v
    let entry := rescueEntry extraFields r
    let logged := some (entry, err)
    let evts500 := evts ++ [HttpEvent.writeHeader 500]
    if dev then
      if isXhr r then
        match err with
        | some msg =>
          { events := evts500 ++ [HttpEvent.write msg], logged := logged,
            escaped := false }
        | none =>
          { events := evts500, logged := logged, escaped := true }
      else
        { events := evts500 ++
            [HttpEvent.write ("<h2>" ++ fmtErr err ++ "</h2><pre>" ++ stack ++ "</pre>")],
          logged := logged, escaped := false }
    else if isXhr r then
      { events := evts500 ++
          [HttpEvent.addHeader "Content-Type" "application/json",
           HttpEvent.write jsonApologyBody],
        logged := logged, escaped := false }
    else
      { events := evts500 ++ [HttpEvent.write textApologyBody],
        logged := logged, escaped := false }

/-- The response tail the spec's decision table (§4.2.e) prescribes after
the 500 status, as a function of dev mode, the XHR signal, the classified
error message and the captured stack: raw message / HTML fragment / JSON
object / plain-text apology, mutually exclusive, first match wins.  Stated
from the spec's words, to be compared with what `Rescue` writes. -/
def specRecoveryTail (dev xhr : Bool) (msg stack : String) : List HttpEvent :=
  if dev && xhr then [HttpEvent.write msg]
  else if dev then
    [HttpEvent.write ("<h2>" ++ msg ++ "</h2><pre>" ++ stack ++ "</pre>")]
  else if xhr then
    [HttpEvent.addHeader "Content-Type" "application/json",
     HttpEvent.write jsonApologyBody]
  else [HttpEvent.write textApologyBody]

end rescueMiddleware

/-- `findSet` scans an appended trace left to right. -/
theorem findSet_append (a b : List HttpEvent) (key : String) :
    findSet (a ++ b) key = (findSet a key).or (findSet b key) := by
  induction a with
  | nil => simp [findSet]
  | cons e rest ih =>
    cases e with
    | setHeader k v =>
      simp only [List.cons_append, findSet]
      by_cases h : (k == key) = true
      · simp [h]
      · simp [h, ih]
    | addHeader k v => simpa only [List.cons_append, findSet] using ih
    | writeHeader s => simpa only [List.cons_append, findSet] using ih
    | write b => simpa only [List.cons_append, findSet] using ih

/-- `findSet` on one conditionally emitted `setHeader` event. -/
theorem findSet_ite_single (c : Prop) [Decidable c] (k v key : String) :
    findSet (if c then [HttpEvent.setHeader k v] else []) key =
      if c then (if k == key then some v else none) else none := by
  split <;> simp [findSet]

namespace securityMiddleware

/-- `String.join` peels off its head summand. -/
theorem join_cons (s : String) (l : List String) :
    String.join (s :: l) = s ++ String.join l := by
  apply String.ext
  simp [String.data_join, String.data_append]

/-- The serialization loop is the concatenation of the per-entry
fragments. -/
theorem cspSerialize_eq_join (m : List (String × List String)) :
    cspSerialize m = String.join (m.map cspFragment) := by
  have gen : ∀ (l : List (String × List String)) (acc : String),
      l.foldl (fun csp kv => csp ++ cspFragment kv) acc =
        acc ++ String.join (l.map cspFragment) := by
    intro l
    induction l with
    | nil => intro acc; simp [String.join]
    | cons kv rest ih =>
      intro acc
      simp only [List.foldl_cons, List.map_cons, ih, join_cons]
      rw [String.append_assoc]
  have h := gen m ""
  have h0 : ∀ t : String, "" ++ t = t := fun t => by
    apply String.ext; simp [String.data_append]
  rw [cspSerialize, h, h0]

/-- A fragment has positive length: it always ends in `";"`. -/
theorem cspFragment_length_pos (kv : String × List String) :
    0 < (cspFragment kv).length := by
  unfold cspFragment
  rw [String.length_append, String.length_append, String.length_append]
  have h : (";" : String).length = 1 := by decide
  omega

/-- The serialized policy string is empty exactly when the map is. -/
theorem cspSerialize_eq_empty_iff (m : List (String × List String)) :
    cspSerialize m = "" ↔ m = [] := by
  cases m with
  | nil => simp [cspSerialize]
  | cons kv rest =>
    have hne : cspSerialize (kv :: rest) ≠ "" := by
      intro h
      rw [cspSerialize_eq_join, List.map_cons, join_cons] at h
      have hlen := congrArg String.length h
      rw [String.length_append] at hlen
      have h0 : ("" : String).length = 0 := rfl
      rw [h0] at hlen
      have := cspFragment_length_pos kv
      omega
    simp [hne]

/-- What `WithConfig` installs for `X-Frame-Options`. -/
theorem xfo_lookup (config : Config) (rootDomain : String) (r : Request) :
    findSet (securityHeadersList config rootDomain r) "X-Frame-Options" =
      (if config.XFrameOptions != "" then some config.XFrameOptions else none) := by
  unfold securityHeadersList
  simp only [findSet_append, findSet_ite_single]
  cases h1 : (config.XFrameOptions != "") <;>
  cases h2 : (cspSerialize config.ContentSecurityPolicy != "") <;>
  cases h3 : (cspSerialize config.ContentSecurityPolicyReportOnly != "") <;>
  cases h4 : (config.StrictTransportSecurity != "" && hasSuffix r.Host rootDomain) <;>
  cases h5 : (config.XContentTypeOptions != "") <;>
  simp [h1, h2, h3, h4, h5, Option.or]

/-- What `WithConfig` installs for `Content-Security-Policy`. -/
theorem csp_lookup (config : Config) (rootDomain : String) (r : Request) :
    findSet (securityHeadersList config rootDomain r) "Content-Security-Policy" =
      (if cspSerialize config.ContentSecurityPolicy != ""
       then some (cspSerialize config.ContentSecurityPolicy) else none) := by
  unfold securityHeadersList
  simp only [findSet_append, findSet_ite_single]
  cases h1 : (config.XFrameOptions != "") <;>
  cases h2 : (cspSerialize config.ContentSecurityPolicy != "") <;>
  cases h3 : (cspSerialize config.ContentSecurityPolicyReportOnly != "") <;>
  cases h4 : (config.StrictTransportSecurity != "" && hasSuffix r.Host rootDomain) <;>
  cases h5 : (config.XContentTypeOptions != "") <;>
  simp [h1, h2, h3, h4, h5, Option.or]

/-- What `WithConfig` installs for `Content-Security-Policy-Report-Only`. -/
theorem cspReport_lookup (config : Config) (rootDomain : String) (r : Request) :
    findSet (securityHeadersList config rootDomain r) "Content-Security-Policy-Report-Only" =
      (if cspSerialize config.ContentSecurityPolicyReportOnly != ""
       then some (cspSerialize config.ContentSecurityPolicyReportOnly) else none) := by
  unfold securityHeadersList
  simp only [findSet_append, findSet_ite_single]
  cases h1 : (config.XFrameOptions != "") <;>
  cases h2 : (cspSerialize config.ContentSecurityPolicy != "") <;>
  cases h3 : (cspSerialize config.ContentSecurityPolicyReportOnly != "") <;>
  cases h4 : (config.StrictTransportSecurity != "" && hasSuffix r.Host rootDomain) <;>
  cases h5 : (config.XContentTypeOptions != "") <;>
  simp [h1, h2, h3, h4, h5, Option.or]

/-- What `WithConfig` installs for `Strict-Transport-Security`. -/
theorem sts_lookup (config : Config) (rootDomain : String) (r : Request) :
    findSet (securityHeadersList config rootDomain r) "Strict-Transport-Security" =
      (if config.StrictTransportSecurity != "" && hasSuffix r.Host rootDomain
       then some config.StrictTransportSecurity else none) := by
  unfold securityHeadersList
  simp only [findSet_append, findSet_ite_single]
  cases h1 : (config.XFrameOptions != "") <;>
  cases h2 : (cspSerialize config.ContentSecurityPolicy != "") <;>
  cases h3 : (cspSerialize config.ContentSecurityPolicyReportOnly != "") <;>
  cases h4 : (config.StrictTransportSecurity != "" && hasSuffix r.Host rootDomain) <;>
  cases h5 : (config.XContentTypeOptions != "") <;>
  simp [h1, h2, h3, h4, h5, Option.or]

/-- What `WithConfig` installs for `X-Content-Type-Options`. -/
theorem xcto_lookup (config : Config) (rootDomain : String) (r : Request) :
    findSet (securityHeadersList config rootDomain r) "X-Content-Type-Options" =
      (if config.XContentTypeOptions != "" then some config.XContentTypeOptions else none) := by
  unfold securityHeadersList
  simp only [findSet_append, findSet_ite_single]
  cases h1 : (config.XFrameOptions != "") <;>
  cases h2 : (cspSerialize config.ContentSecurityPolicy != "") <;>
  cases h3 : (cspSerialize config.ContentSecurityPolicyReportOnly != "") <;>
  cases h4 : (config.StrictTransportSecurity != "" && hasSuffix r.Host rootDomain) <;>
  cases h5 : (config.XContentTypeOptions != "") <;>
  simp [h1, h2, h3, h4, h5, Option.or]

/-- Every string has the empty string as a suffix (`strings.HasSuffix(s, "")`
is always `true`). -/
theorem hasSuffix_empty (s : String) : hasSuffix s "" = true := by
  simp [hasSuffix, List.isSuffixOf]

end securityMiddleware

namespace securityMiddleware

/-- A fragment of each map entry is an infix of the serialized policy. -/
theorem cspFragment_infix {kv : String × List String}
    {m : List (String × List String)} (h : kv ∈ m) :
    (cspFragment kv).data <:+: (cspSerialize m).data := by
  induction m with
  | nil => cases h
  | cons a rest ih =>
    rw [cspSerialize_eq_join, List.map_cons, join_cons, String.data_append]
    cases h with
    | head =>
      exact ⟨[], (String.join (rest.map cspFragment)).data, by simp⟩
    | tail _ hmem =>
      obtain ⟨u, t, hut⟩ := by
        have hrec := ih hmem
        rw [cspSerialize_eq_join] at hrec
        exact hrec
      exact ⟨(cspFragment a).data ++ u, t, by rw [← hut]; simp⟩

/-- C3: `WithConfig` sets `Strict-Transport-Security` iff the configured
value is non-empty and the request's host ends with `rootDomain`
(case-sensitive suffix match, no normalisation); when set, the header's
value is exactly the configured value. -/
theorem C3_sts_iff (config : Config) (rootDomain : String) (r : Request) :
    findSet (securityHeadersList config rootDomain r) "Strict-Transport-Security" =
      (if config.StrictTransportSecurity != "" && hasSuffix r.Host rootDomain
       then some config.StrictTransportSecurity else none) :=
  sts_lookup config rootDomain r

/-- C6: the CSP mapping is serialized as the separator-free concatenation
of the fragments `"<key> <space-joined values>;"`, each entry's fragment
occurring as a substring of the result; the report-only header carries the
same serialization, applied to `ContentSecurityPolicyReportOnly`. -/
theorem C6_csp_serialization (m : List (String × List String)) :
    cspSerialize m = String.join (m.map cspFragment) ∧
    (∀ kv, kv ∈ m → (cspFragment kv).data <:+: (cspSerialize m).data) ∧
    (∀ config rootDomain (r : Request),
      findSet (securityHeadersList config rootDomain r)
          "Content-Security-Policy-Report-Only" =
        (if cspSerialize config.ContentSecurityPolicyReportOnly != ""
         then some (cspSerialize config.ContentSecurityPolicyReportOnly)
         else none)) :=
  ⟨cspSerialize_eq_join m, fun _ h => cspFragment_infix h,
   fun config rootDomain r => cspReport_lookup config rootDomain r⟩

/-- C6 witness: the spec's example config produces a policy containing
both `default-src 'self';` and `img-src * data:;` as substrings. -/
theorem C6_csp_serialization_witness :
    ("default-src \x27self\x27;").data <:+:
      (cspSerialize [("default-src", ["\x27self\x27"]), ("img-src", ["*", "data:"])]).data ∧
    ("img-src * data:;").data <:+:
      (cspSerialize [("default-src", ["\x27self\x27"]), ("img-src", ["*", "data:"])]).data := by
  have h := (C6_csp_serialization
      [("default-src", ["\x27self\x27"]), ("img-src", ["*", "data:"])]).2.1
  exact ⟨h ("default-src", ["\x27self\x27"]) (by simp),
         h ("img-src", ["*", "data:"]) (by simp)⟩

end securityMiddleware

namespace securityMiddleware

/-- C7 fails as stated: two iteration orders of the same two-directive CSP
map (a permutation, i.e. the same Go map ranged over twice) give the
`Content-Security-Policy` header two different values. -/
theorem C7_counterexample :
    List.Perm [("a", ["x"]), ("b", ["y"])] [("b", ["y"]), ("a", ["x"])] ∧
    findSet (securityHeadersList
        { XFrameOptions := "", ContentSecurityPolicy := [("a", ["x"]), ("b", ["y"])],
          ContentSecurityPolicyReportOnly := [], StrictTransportSecurity := "",
          XContentTypeOptions := "" } "" { Host := "h", headers := [] })
        "Content-Security-Policy" = some "a x;b y;" ∧
    findSet (securityHeadersList
        { XFrameOptions := "", ContentSecurityPolicy := [("b", ["y"]), ("a", ["x"])],
          ContentSecurityPolicyReportOnly := [], StrictTransportSecurity := "",
          XContentTypeOptions := "" } "" { Host := "h", headers := [] })
        "Content-Security-Policy" = some "b y;a x;" ∧
    some ("a x;b y;" : String) ≠ some ("b y;a x;" : String) :=
  ⟨List.Perm.swap _ _ _, by decide, by decide, by decide⟩

/-- C7 amended: for a fixed configuration and host, the values of
`X-Frame-Options`, `Strict-Transport-Security` and `X-Content-Type-Options`
are deterministic; the two CSP headers are deterministic only up to the
iteration order of the mapping: their presence is determined, and the
multiset of directive fragments making up their value is determined, but
the serialized string itself may differ between two runs. -/
theorem C7_determinism_up_to_order (c c' : Config) (rootDomain : String)
    (r : Request)
    (hx : c.XFrameOptions = c'.XFrameOptions)
    (hs : c.StrictTransportSecurity = c'.StrictTransportSecurity)
    (hc : c.XContentTypeOptions = c'.XContentTypeOptions)
    (hp : List.Perm c.ContentSecurityPolicy c'.ContentSecurityPolicy)
    (hq : List.Perm c.ContentSecurityPolicyReportOnly
      c'.ContentSecurityPolicyReportOnly) :
    findSet (securityHeadersList c rootDomain r) "X-Frame-Options" =
      findSet (securityHeadersList c' rootDomain r) "X-Frame-Options" ∧
    findSet (securityHeadersList c rootDomain r) "Strict-Transport-Security" =
      findSet (securityHeadersList c' rootDomain r) "Strict-Transport-Security" ∧
    findSet (securityHeadersList c rootDomain r) "X-Content-Type-Options" =
      findSet (securityHeadersList c' rootDomain r) "X-Content-Type-Options" ∧
    (findSet (securityHeadersList c rootDomain r)
        "Content-Security-Policy").isSome =
      (findSet (securityHeadersList c' rootDomain r)
        "Content-Security-Policy").isSome ∧
    (findSet (securityHeadersList c rootDomain r)
        "Content-Security-Policy-Report-Only").isSome =
      (findSet (securityHeadersList c' rootDomain r)
        "Content-Security-Policy-Report-Only").isSome ∧
    List.Perm (c.ContentSecurityPolicy.map cspFragment)
      (c'.ContentSecurityPolicy.map cspFragment) ∧
    List.Perm (c.ContentSecurityPolicyReportOnly.map cspFragment)
      (c'.ContentSecurityPolicyReportOnly.map cspFragment) := by
  have hnil : ∀ (a b : List (String × List String)), List.Perm a b →
      ((cspSerialize a != "") = (cspSerialize b != "")) := by
    intro a b hab
    by_cases h : cspSerialize a = ""
    · have ha : a = [] := (cspSerialize_eq_empty_iff a).mp h
      have hb : b = [] := List.Perm.eq_nil (ha ▸ hab).symm
      rw [h, hb]
      rfl
    · have ha : a ≠ [] := fun hn => h ((cspSerialize_eq_empty_iff a).mpr hn)
      have hb : b ≠ [] := fun hn => ha (List.Perm.eq_nil (hn ▸ hab))
      have h' : cspSerialize b ≠ "" :=
        fun hn => hb ((cspSerialize_eq_empty_iff b).mp hn)
      have h1 : (cspSerialize a != "") = true := by
        simpa [bne_iff_ne] using h
      have h2 : (cspSerialize b != "") = true := by
        simpa [bne_iff_ne] using h'
      rw [h1, h2]
  refine ⟨?_, ?_, ?_, ?_, ?_, hp.map cspFragment, hq.map cspFragment⟩
  · rw [xfo_lookup, xfo_lookup, hx]
  · rw [sts_lookup, sts_lookup, hs]
  · rw [xcto_lookup, xcto_lookup, hc]
  · rw [csp_lookup, csp_lookup, hnil _ _ hp]
    cases hb : (cspSerialize c'.ContentSecurityPolicy != "") <;> simp
  · rw [cspReport_lookup, cspReport_lookup, hnil _ _ hq]
    cases hb : (cspSerialize c'.ContentSecurityPolicyReportOnly != "") <;> simp

/-- C7 witness: the amended determinism applied to the permuted
two-directive configurations. -/
theorem C7_determinism_witness :
    List.Perm ([("a", ["x"]), ("b", ["y"])].map cspFragment)
      ([("b", ["y"]), ("a", ["x"])].map cspFragment) :=
  (C7_determinism_up_to_order
    { XFrameOptions := "", ContentSecurityPolicy := [("a", ["x"]), ("b", ["y"])],
      ContentSecurityPolicyReportOnly := [], StrictTransportSecurity := "",
      XContentTypeOptions := "" }
    { XFrameOptions := "", ContentSecurityPolicy := [("b", ["y"]), ("a", ["x"])],
      ContentSecurityPolicyReportOnly := [], StrictTransportSecurity := "",
      XContentTypeOptions := "" }
    "" { Host := "h", headers := [] }
    rfl rfl rfl (List.Perm.swap _ _ _) (List.Perm.refl _)).2.2.2.2.2.1

end securityMiddleware

namespace securityMiddleware

/-- C8 fails as stated: a CSP mapping whose only directive has an empty
source-token list still yields the non-empty policy string
`"default-src ;"`, so the `Content-Security-Policy` header IS emitted. -/
theorem C8_counterexample :
    findSet (securityHeadersList
        { XFrameOptions := "", ContentSecurityPolicy := [("default-src", [])],
          ContentSecurityPolicyReportOnly := [], StrictTransportSecurity := "",
          XContentTypeOptions := "" } "" { Host := "h", headers := [] })
        "Content-Security-Policy" = some "default-src ;" := by
  decide

/-- C8 amended: a missing or empty directive never emits the corresponding
header, where for the two CSP mappings "empty" means the mapping has no
directives (a present directive with an empty source-token list still
emits the header, as the counterexample shows). -/
theorem C8_empty_directive_omitted (config : Config) (rootDomain : String)
    (r : Request) :
    (config.XFrameOptions = "" →
      findSet (securityHeadersList config rootDomain r) "X-Frame-Options" = none) ∧
    (config.ContentSecurityPolicy = [] →
      findSet (securityHeadersList config rootDomain r)
        "Content-Security-Policy" = none) ∧
    (config.ContentSecurityPolicyReportOnly = [] →
      findSet (securityHeadersList config rootDomain r)
        "Content-Security-Policy-Report-Only" = none) ∧
    (config.StrictTransportSecurity = "" →
      findSet (securityHeadersList config rootDomain r)
        "Strict-Transport-Security" = none) ∧
    (config.XContentTypeOptions = "" →
      findSet (securityHeadersList config rootDomain r)
        "X-Content-Type-Options" = none) := by
  refine ⟨?_, ?_, ?_, ?_, ?_⟩ <;> intro h
  · rw [xfo_lookup, h]; rfl
  · rw [csp_lookup, h]; rfl
  · rw [cspReport_lookup, h]; rfl
  · rw [sts_lookup, h]; rfl
  · rw [xcto_lookup, h]; rfl

/-- C8 witness: the all-empty configuration emits none of the five
headers. -/
theorem C8_empty_directive_omitted_witness :
    findSet (securityHeadersList
      { XFrameOptions := "", ContentSecurityPolicy := [],
        ContentSecurityPolicyReportOnly := [], StrictTransportSecurity := "",
        XContentTypeOptions := "" } "example.com" { Host := "h", headers := [] })
      "X-Frame-Options" = none ∧
    findSet (securityHeadersList
      { XFrameOptions := "", ContentSecurityPolicy := [],
        ContentSecurityPolicyReportOnly := [], StrictTransportSecurity := "",
        XContentTypeOptions := "" } "example.com" { Host := "h", headers := [] })
      "Content-Security-Policy" = none ∧
    findSet (securityHeadersList
      { XFrameOptions := "", ContentSecurityPolicy := [],
        ContentSecurityPolicyReportOnly := [], StrictTransportSecurity := "",
        XContentTypeOptions := "" } "example.com" { Host := "h", headers := [] })
      "Content-Security-Policy-Report-Only" = none ∧
    findSet (securityHeadersList
      { XFrameOptions := "", ContentSecurityPolicy := [],
        ContentSecurityPolicyReportOnly := [], StrictTransportSecurity := "",
        XContentTypeOptions := "" } "example.com" { Host := "h", headers := [] })
      "Strict-Transport-Security" = none ∧
    findSet (securityHeadersList
      { XFrameOptions := "", ContentSecurityPolicy := [],
        ContentSecurityPolicyReportOnly := [], StrictTransportSecurity := "",
        XContentTypeOptions := "" } "example.com" { Host := "h", headers := [] })
      "X-Content-Type-Options" = none := by
  have h := C8_empty_directive_omitted
    { XFrameOptions := "", ContentSecurityPolicy := [],
      ContentSecurityPolicyReportOnly := [], StrictTransportSecurity := "",
      XContentTypeOptions := "" } "example.com" { Host := "h", headers := [] }
  exact ⟨h.1 rfl, h.2.1 rfl, h.2.2.1 rfl, h.2.2.2.1 rfl, h.2.2.2.2 rfl⟩

/-- C9: with every directive empty, `WithConfig` writes zero headers and
still delegates to the next handler unconditionally: its trace is exactly
the next handler's. -/
theorem C9_empty_config (config : Config) (rootDomain : String)
    (next : Request → List HttpEvent) (r : Request)
    (h1 : config.XFrameOptions = "") (h2 : config.ContentSecurityPolicy = [])
    (h3 : config.ContentSecurityPolicyReportOnly = [])
    (h4 : config.StrictTransportSecurity = "")
    (h5 : config.XContentTypeOptions = "") :
    securityHeadersList config rootDomain r = [] ∧
      WithConfig config rootDomain next r = next r := by
  have hl : securityHeadersList config rootDomain r = [] := by
    unfold securityHeadersList
    rw [h1, h2, h3, h4, h5]
    rfl
  exact ⟨hl, by rw [WithConfig, hl, List.nil_append]⟩

/-- C9 witness: the all-empty configuration leaves a concrete next
handler's response untouched. -/
theorem C9_empty_config_witness :
    securityHeadersList
      { XFrameOptions := "", ContentSecurityPolicy := [],
        ContentSecurityPolicyReportOnly := [], StrictTransportSecurity := "",
        XContentTypeOptions := "" } "example.com" { Host := "h", headers := [] } = [] ∧
    WithConfig
      { XFrameOptions := "", ContentSecurityPolicy := [],
        ContentSecurityPolicyReportOnly := [], StrictTransportSecurity := "",
        XContentTypeOptions := "" } "example.com"
      (fun _ => [HttpEvent.write "hello"]) { Host := "h", headers := [] } =
      [HttpEvent.write "hello"] :=
  C9_empty_config _ "example.com" (fun _ => [HttpEvent.write "hello"])
    { Host := "h", headers := [] } rfl rfl rfl rfl rfl

/-- C10: with an empty `rootDomain` every host passes the suffix test, so a
non-empty configured `Strict-Transport-Security` value is set on every
request. -/
theorem C10_empty_rootDomain (config : Config) (r : Request)
    (h : config.StrictTransportSecurity ≠ "") :
    findSet (securityHeadersList config "" r) "Strict-Transport-Security" =
      some config.StrictTransportSecurity := by
  rw [sts_lookup]
  have hb : (config.StrictTransportSecurity != "") = true := by
    simpa [bne_iff_ne] using h
  rw [hasSuffix_empty, hb]
  rfl

/-- C10 witness: with empty root domain the STS header is set even for a
host unrelated to any configured domain. -/
theorem C10_empty_rootDomain_witness :
    findSet (securityHeadersList
      { XFrameOptions := "", ContentSecurityPolicy := [],
        ContentSecurityPolicyReportOnly := [],
        StrictTransportSecurity := "max-age=2592000", XContentTypeOptions := "" }
      "" { Host := "totally.unrelated.example", headers := [] })
      "Strict-Transport-Security" = some "max-age=2592000" :=
  C10_empty_rootDomain _ { Host := "totally.unrelated.example", headers := [] }
    (by decide)

end securityMiddleware

namespace rescueMiddleware

/-- C1 fails on the code: when the handler panics with a
`map[string]interface{}` carrying no `"error"` key, `dev` is on and the
request is XHR, the classified error is nil, `err.Error()` in the deferred
function is a method call on a nil interface, and the resulting runtime
panic escapes the recovery boundary (the 500 status has been written, but
no body, and the request does not terminate normally). -/
theorem C1_absorption_eval :
    (Rescue none true (fun _ => ([], Outcome.fault (GoValue.strMap []))) "ST"
        { Host := "h", headers := [("X-Requested-With", "XMLHttpRequest")] }).escaped
      = true ∧
    (Rescue none true (fun _ => ([], Outcome.fault (GoValue.strMap []))) "ST"
        { Host := "h", headers := [("X-Requested-With", "XMLHttpRequest")] }).events
      = [HttpEvent.writeHeader 500] := by
  exact ⟨rfl, rfl⟩

/-- C5: a handler that completes without faulting is untouched: `Rescue`
returns exactly the handler's trace, calls `l.Err` on nothing, and lets
nothing escape. -/
theorem C5_success_noop (extraFields : Option (Request → LogEntry → LogEntry))
    (dev : Bool) (next : Request → List HttpEvent × Outcome) (stack : String)
    (r : Request) (evts : List HttpEvent) (h : next r = (evts, Outcome.ok)) :
    Rescue extraFields dev next stack r =
      { events := evts, logged := none, escaped := false } := by
  unfold Rescue
  rw [h]

/-- C5 witness: a concrete non-faulting handler passes through unchanged. -/
theorem C5_success_noop_witness :
    Rescue none true (fun _ => ([HttpEvent.writeHeader 204], Outcome.ok)) "ST"
      { Host := "h", headers := [] } =
      { events := [HttpEvent.writeHeader 204], logged := none, escaped := false } :=
  C5_success_noop none true (fun _ => ([HttpEvent.writeHeader 204], Outcome.ok))
    "ST" { Host := "h", headers := [] } [HttpEvent.writeHeader 204] rfl

end rescueMiddleware

namespace rescueMiddleware

/-- C2 fails as stated: on recovery from a fault that classifies to a nil
error (here a map whose `"error"` slot holds a non-error), with `dev` on
and an XHR request, `Rescue` writes no body at all — the deferred function
panics at `err.Error()` before reaching any branch of the table. -/
theorem C2_counterexample :
    bodyWrites (Rescue none true
        (fun _ => ([], Outcome.fault
          (GoValue.strMap [("error", MapVal.nonErr "oops")]))) "ST"
        { Host := "h", headers := [("X-Requested-With", "XMLHttpRequest")] }).events
      = [] ∧
    (Rescue none true
        (fun _ => ([], Outcome.fault
          (GoValue.strMap [("error", MapVal.nonErr "oops")]))) "ST"
        { Host := "h", headers := [("X-Requested-With", "XMLHttpRequest")] }).escaped
      = true := by
  exact ⟨rfl, rfl⟩

/-- C2 amended: on recovery from any fault whose classification yields a
(non-nil) error message, `Rescue` appends to the handler's trace exactly
the 500 status followed by the body the spec's decision table prescribes —
mutually exclusive, first match wins — and that tail contains exactly one
body write; no fault escapes.  (For the one excluded shape — a mapping
without an `"error"`-keyed error — under dev mode and XHR the recovery
writes no body and itself panics, per the counterexample.) -/
theorem C2_decision_table (extraFields : Option (Request → LogEntry → LogEntry))
    (dev : Bool) (next : Request → List HttpEvent × Outcome) (stack : String)
    (r : Request) (evts : List HttpEvent) (v : GoValue) (msg : String)
    (hnext : next r = (evts, Outcome.fault v)) (hcl : classify v = some msg) :
    (Rescue extraFields dev next stack r).events =
      evts ++ [HttpEvent.writeHeader 500] ++
        specRecoveryTail dev (isXhr r) msg stack ∧
    (Rescue extraFields dev next stack r).escaped = false ∧
    (bodyWrites (specRecoveryTail dev (isXhr r) msg stack)).length = 1 ∧
    statusWrites ([HttpEvent.writeHeader 500] ++
      specRecoveryTail dev (isXhr r) msg stack) = [500] := by
  unfold Rescue
  rw [hnext]
  cases dev <;> cases hx : isXhr r <;>
    simp [hcl, hx, specRecoveryTail, bodyWrites, statusWrites, fmtErr,
      List.append_assoc]

end rescueMiddleware

namespace rescueMiddleware

/-- C2 witness: the spec's own test case — fault `"boom"`, `dev=false`, no
XHR header — yields status 500 and exactly the plain-text apology body. -/
theorem C2_decision_table_witness :
    (Rescue none false (fun _ => ([], Outcome.fault (GoValue.errValue "boom")))
        "ST" { Host := "h", headers := [] }).events =
      [HttpEvent.writeHeader 500, HttpEvent.write textApologyBody] ∧
    (Rescue none false (fun _ => ([], Outcome.fault (GoValue.errValue "boom")))
        "ST" { Host := "h", headers := [] }).escaped = false := by
  have h := C2_decision_table none false
    (fun _ => ([], Outcome.fault (GoValue.errValue "boom"))) "ST"
    { Host := "h", headers := [] } [] (GoValue.errValue "boom") "boom" rfl rfl
  refine ⟨?_, h.2.1⟩
  rw [h.1]
  rfl

end rescueMiddleware

namespace rescueMiddleware

/-- C4 fails as stated: for a mapping fault with no `"error"` key the map
case of the switch does NOT fall back to the generic formatted message —
`err, _ = rec["error"].(error)` leaves the error nil, and `l.Err` (the
logging sink) receives that nil error. -/
theorem C4_counterexample :
    (Rescue none false (fun _ => ([], Outcome.fault (GoValue.strMap []))) "ST"
        { Host := "h", headers := [] }).logged =
      some ({ module := "panic handler" }, none) := by
  rfl

/-- C4 amended: on every fault the sink receives exactly the classified
value; classification yields the error as-is for error faults, the
extracted error for mapping faults whose `"error"` entry is an error, and
a formatted generic error for non-error, non-mapping faults — but for a
mapping fault without an `"error"`-keyed error it yields nil, so the value
handed to the sink is not always a usable error. -/
theorem C4_classification (extraFields : Option (Request → LogEntry → LogEntry))
    (dev : Bool) (next : Request → List HttpEvent × Outcome) (stack : String)
    (r : Request) (evts : List HttpEvent) (v : GoValue)
    (hnext : next r = (evts, Outcome.fault v)) :
    (Rescue extraFields dev next stack r).logged =
      some (rescueEntry extraFields r, classify v) ∧
    (∀ msg, classify (GoValue.errValue msg) = some msg) ∧
    (∀ repr, classify (GoValue.other repr) = some repr) ∧
    (∀ entries msg, entries.lookup "error" = some (MapVal.errVal msg) →
      classify (GoValue.strMap entries) = some msg) ∧
    (∀ entries, (∀ msg, entries.lookup "error" ≠ some (MapVal.errVal msg)) →
      classify (GoValue.strMap entries) = none) := by
  refine ⟨?_, fun _ => rfl, fun _ => rfl, ?_, ?_⟩
  · unfold Rescue
    rw [hnext]
    cases dev <;> cases hx : isXhr r <;> cases hc : classify v <;>
      simp [hc, hx]
  · intro entries msg h
    simp [classify, h]
  · intro entries h
    cases hl : entries.lookup "error" with
    | none => simp [classify, hl]
    | some mv =>
      cases mv with
      | errVal msg => exact absurd hl (h msg)
      | nonErr _ => simp [classify, hl]

/-- C4 witness: a non-map, non-error fault is formatted into a usable
error and handed to the sink, while a map whose `"error"` entry is not an
error classifies to nil. -/
theorem C4_classification_witness :
    (Rescue none false (fun _ => ([], Outcome.fault (GoValue.other "boom")))
        "ST" { Host := "h", headers := [] }).logged =
      some ({ module := "panic handler" }, some "boom") ∧
    classify (GoValue.strMap [("error", MapVal.nonErr "boom")]) = none := by
  have h := C4_classification none false
    (fun _ => ([], Outcome.fault (GoValue.other "boom"))) "ST"
    { Host := "h", headers := [] } [] (GoValue.other "boom") rfl
  refine ⟨h.1, h.2.2.2.2 [("error", MapVal.nonErr "boom")] ?_⟩
  intro msg hmsg
  simp [List.lookup] at hmsg

end rescueMiddleware
